import Mathlib

/-!
Verification development for the MS-File-Server repository
(`app/main.py`, `app/storage.py`, `app/config.py`).

The server exposes upload/download/list/delete/info endpoints over a MinIO
bucket.  We embed the bucket as an association list from object names to
stored objects, the MinIO client primitives (`put_object`, `get_object`,
`stat_object`, `remove_object`, `list_objects`) as pure functions on that
state, the `MinIOStorage` adapter methods of `app/storage.py` on top of
them, and the FastAPI endpoint handlers of `app/main.py` on top of those.
Every storage-level and endpoint-level operation additionally returns the
trace of backend calls it issued, so that "no backend write happened"
style properties are expressible.

Modelling conventions:
* bytes are `List Nat`;
* timestamps are `Nat` (the code formats `last_modified` with `strftime`;
  no property below depends on the textual format, only on the value
  being the backend-assigned one);
* the external MinIO client primitives are modelled after the S3
  behaviour the repository's code handles: `stat_object`, `get_object`
  and `remove_object` signal `NoSuchKey` (here: `none`) when the object
  is absent, and `list_objects` enumerates the bucket in ascending
  lexicographic order of object name (the S3 ListObjects contract);
* `put_object` overwrites silently, writing exactly `file_size` bytes of
  the supplied stream.
-/

/-- Byte sequences (request bodies / object contents). -/
abbrev Bytes := List Nat

/-- One object persisted in the bucket: its bytes, its content type as
stored, and the backend-assigned last-modified timestamp. -/
structure StoredObject where
  data : Bytes
  content_type : String
  last_modified : Nat
deriving DecidableEq, Repr

/-- The bucket: a flat namespace of named objects.  Operations below keep
at most one entry per name. -/
abbrev Bucket := List (String × StoredObject)

/-- A backend (MinIO client) call, recorded in traces. -/
inductive BackendCall where
  | stat (name : String)
  | put (name : String)
  | get (name : String)
  | remove (name : String)
  | list
deriving DecidableEq, Repr

/-- `stat_object`/`get_object` name resolution: the object stored under
`n`, or `none` for the backend's NoSuchKey outcome. -/
def lookupObject : Bucket → String → Option StoredObject
  | [], _ => none
  | p :: rest, n => if p.1 = n then some p.2 else lookupObject rest n

/-- Drop every entry stored under name `n`. -/
def removeKey (b : Bucket) (n : String) : Bucket :=
  b.filter fun p => decide (p.1 ≠ n)

/-- The MinIO client `put_object` primitive: writes `file_size` bytes of
`data` under `n` with the given content type, silently replacing any
existing object of that name; `now` is the backend-assigned timestamp. -/
def putObject (b : Bucket) (n : String) (data : Bytes) (file_size : Nat)
    (content_type : String) (now : Nat) : Bucket :=
  (n, ⟨data.take file_size, content_type, now⟩) :: removeKey b n

/-- The MinIO client `remove_object` primitive, modelled as signalling
NoSuchKey (`none`) when the object is absent — the error vocabulary that
`MinIOStorage.delete_file` handles. -/
def removeObject (b : Bucket) (n : String) : Option Bucket :=
  if (lookupObject b n).isSome then some (removeKey b n) else none

/-- A listing summary as returned by the MinIO client `list_objects`
primitive: name, size and timestamp, but no content type (recovering the
content type requires a follow-up `stat_object`). -/
structure ObjectSummary where
  object_name : String
  size : Nat
  last_modified : Nat
deriving DecidableEq, Repr

/-- Ordering of bucket entries by object name. -/
def keyLE (p q : String × StoredObject) : Prop := p.1 ≤ q.1

instance : DecidableRel keyLE := fun p q => inferInstanceAs (Decidable (p.1 ≤ q.1))

instance : IsTotal (String × StoredObject) keyLE := ⟨fun p q => le_total p.1 q.1⟩

instance : IsTrans (String × StoredObject) keyLE := ⟨fun _ _ _ => le_trans⟩

/-- The MinIO client `list_objects` primitive: summaries of all objects,
in ascending lexicographic order of object name. -/
def listObjects (b : Bucket) : List ObjectSummary :=
  (List.insertionSort keyLE b).map fun p => ⟨p.1, p.2.data.length, p.2.last_modified⟩

/-- Python `s or "application/octet-stream"` on a string that may be
empty (the falsy case). -/
def orDefault (s : String) : String :=
  if s = "" then "application/octet-stream" else s

/-- Python `x or "application/octet-stream"` on an `Optional[str]`
(`None` and the empty string are falsy). -/
def contentTypeOrDefault : Option String → String
  | none => "application/octet-stream"
  | some s => orDefault s

/-- The `FileInfo` pydantic model of `app/storage.py`. -/
structure FileInfo where
  name : String
  size : Nat
  last_modified : Nat
  content_type : String := "application/octet-stream"
deriving DecidableEq, Repr

namespace MinIOStorage

/-- `MinIOStorage.file_exists`: one `stat_object`; present iff the stat
succeeds (NoSuchKey maps to `false`). -/
def file_exists (b : Bucket) (file_name : String) : Bool × List BackendCall :=
  ((lookupObject b file_name).isSome, [.stat file_name])

/-- `MinIOStorage.upload_file`: one `put_object`; returns `True` on
success. -/
def upload_file (b : Bucket) (file_name : String) (file_data : Bytes)
    (file_size : Nat) (content_type : String) (now : Nat) :
    Bucket × Bool × List BackendCall :=
  (putObject b file_name file_data file_size content_type now, true, [.put file_name])

/-- `MinIOStorage.download_file`: one `get_object`; NoSuchKey maps to
`None`. -/
def download_file (b : Bucket) (file_name : String) :
    Option Bytes × List BackendCall :=
  ((lookupObject b file_name).map StoredObject.data, [.get file_name])

/-- The record built for one listed object inside
`MinIOStorage.list_files`: name/size/timestamp from the summary, content
type from the follow-up `stat_object` (defaulted when falsy).  The `none`
branch is unreachable for the buckets produced here (a listed object
stats successfully); the code would raise there. -/
def statRecord (b : Bucket) (o : ObjectSummary) : FileInfo :=
  match lookupObject b o.object_name with
  | some st =>
      { name := o.object_name, size := o.size, last_modified := o.last_modified,
        content_type := orDefault st.content_type }
  | none =>
      { name := o.object_name, size := o.size, last_modified := o.last_modified }

/-- `MinIOStorage.list_files`: one `list_objects`, then one `stat_object`
per listed object to recover its content type. -/
def list_files (b : Bucket) : List FileInfo × List BackendCall :=
  ((listObjects b).map (statRecord b),
   BackendCall.list :: (listObjects b).map fun o => .stat o.object_name)

/-- `MinIOStorage.delete_file`: one `remove_object`; NoSuchKey maps to
`False`, success to `True`. -/
def delete_file (b : Bucket) (file_name : String) :
    Bucket × Bool × List BackendCall :=
  match removeObject b file_name with
  | some b2 => (b2, true, [.remove file_name])
  | none => (b, false, [.remove file_name])

/-- `MinIOStorage.get_file_info`: one `stat_object`, wrapped into a
`FileInfo`; NoSuchKey maps to `None`. -/
def get_file_info (b : Bucket) (file_name : String) :
    Option FileInfo × List BackendCall :=
  (match lookupObject b file_name with
   | some st =>
       some { name := file_name, size := st.data.length,
              last_modified := st.last_modified,
              content_type := orDefault st.content_type }
   | none => none,
   [.stat file_name])

end MinIOStorage

/-- `Settings.max_file_size` default of `app/config.py` (100 MB). -/
def settings_max_file_size : Nat := 100 * 1024 * 1024

/-- The multipart upload request as the handler sees it: `file.filename`,
the bytes `file.read()` yields, `file.size` (may be absent), and
`file.content_type` (may be absent). -/
structure UploadRequest where
  filename : String
  content : Bytes
  size : Option Nat
  content_type : Option String
deriving DecidableEq, Repr

/-- Response of the upload endpoint: the 200 JSON body (whose
`content_type` field echoes `file.content_type` verbatim) or an
`HTTPException` status with its detail. -/
inductive UploadResult where
  | ok (message : String) (filename : String) (size : Nat) (content_type : Option String)
  | err (status : Nat) (detail : String)
deriving DecidableEq, Repr

/-- HTTP status of an upload outcome (200 on the success body). -/
def UploadResult.status : UploadResult → Nat
  | .ok _ _ _ _ => 200
  | .err s _ => s

/-- Response of the download endpoint: the streamed bytes with media type
and Content-Disposition header, or an error status. -/
inductive DownloadResult where
  | ok (data : Bytes) (media_type : String) (content_disposition : String)
  | err (status : Nat) (detail : String)
deriving DecidableEq, Repr

/-- Response of the delete endpoint. -/
inductive DeleteResult where
  | ok (message : String)
  | err (status : Nat) (detail : String)
deriving DecidableEq, Repr

/-- Response of the info endpoint. -/
inductive InfoResult where
  | ok (info : FileInfo)
  | err (status : Nat) (detail : String)
deriving DecidableEq, Repr

/-- The size gate of `app/main.py` line 86:
`if file.size and file.size > settings.max_file_size` — `None` and `0`
are falsy, so the check only fires on a known non-zero declared size
exceeding the configured maximum. -/
def sizeGate (size : Option Nat) (max_file_size : Nat) : Bool :=
  match size with
  | none => false
  | some s => decide (0 < s) && decide (max_file_size < s)

namespace App

/-- The `POST /api/v1/files/upload` handler: size gate, existence check,
read body, delegate to `MinIOStorage.upload_file`.  Returns the response,
the resulting bucket and the backend-call trace. -/
def upload_file (max_file_size : Nat) (b : Bucket) (file : UploadRequest)
    (now : Nat) : UploadResult × Bucket × List BackendCall :=
  if sizeGate file.size max_file_size then
    (.err 413 ("File too large. Maximum size is " ++ toString max_file_size ++ " bytes"),
     b, [])
  else
    let e := MinIOStorage.file_exists b file.filename
    if e.1 then
      (.err 409 ("File " ++ file.filename ++ " already exists"), b, e.2)
    else
      let file_content := file.content
      let file_size := file_content.length
      let u := MinIOStorage.upload_file b file.filename file_content file_size
        (contentTypeOrDefault file.content_type) now
      if u.2.1 then
        (.ok ("File " ++ file.filename ++ " uploaded successfully")
           file.filename file_size file.content_type,
         u.1, e.2 ++ u.2.2)
      else
        (.err 500 "Failed to upload file", u.1, e.2 ++ u.2.2)

/-- The `GET /api/v1/files/download/{filename}` handler: existence check,
`get_file_info` for the content type, `download_file` for the bytes. -/
def download_file (b : Bucket) (filename : String) :
    DownloadResult × Bucket × List BackendCall :=
  let e := MinIOStorage.file_exists b filename
  if !e.1 then
    (.err 404 "File not found", b, e.2)
  else
    let fi := MinIOStorage.get_file_info b filename
    let fd := MinIOStorage.download_file b filename
    match fd.1 with
    | none => (.err 404 "File not found", b, e.2 ++ fi.2 ++ fd.2)
    | some data =>
        (.ok data
           (match fi.1 with
            | some info => info.content_type
            | none => "application/octet-stream")
           ("attachment; filename=" ++ filename),
         b, e.2 ++ fi.2 ++ fd.2)

/-- The `GET /api/v1/files` handler: passthrough to
`MinIOStorage.list_files`. -/
def list_files (b : Bucket) : List FileInfo × Bucket × List BackendCall :=
  let r := MinIOStorage.list_files b
  (r.1, b, r.2)

/-- The `DELETE /api/v1/files/{filename}` handler: existence check, then
`MinIOStorage.delete_file`. -/
def delete_file (b : Bucket) (filename : String) :
    DeleteResult × Bucket × List BackendCall :=
  let e := MinIOStorage.file_exists b filename
  if !e.1 then
    (.err 404 "File not found", b, e.2)
  else
    let d := MinIOStorage.delete_file b filename
    if d.2.1 then
      (.ok ("File " ++ filename ++ " deleted successfully"), d.1, e.2 ++ d.2.2)
    else
      (.err 500 "Failed to delete file", d.1, e.2 ++ d.2.2)

/-- The `GET /api/v1/files/{filename}/info` handler:
`MinIOStorage.get_file_info`, with `None` mapped to 404. -/
def get_file_info (b : Bucket) (filename : String) :
    InfoResult × Bucket × List BackendCall :=
  let r := MinIOStorage.get_file_info b filename
  match r.1 with
  | none => (.err 404 "File not found", b, r.2)
  | some info => (.ok info, b, r.2)

end App

/-- Uploading three files in sequence into a bucket (used for the listing
completeness property). -/
def uploadThree (m : Nat) (rA rB rC : UploadRequest) (t1 t2 t3 : Nat)
    (b : Bucket) : Bucket :=
  (App.upload_file m
    (App.upload_file m (App.upload_file m b rA t1).2.1 rB t2).2.1 rC t3).2.1

/-- The `FileInfo` a listing produces for a bucket entry, once the
follow-up stat resolves to that entry. -/
def recordOf (p : String × StoredObject) : FileInfo :=
  ⟨p.1, p.2.data.length, p.2.last_modified, orDefault p.2.content_type⟩

theorem lookupObject_removeKey_self (b : Bucket) (n : String) :
    lookupObject (removeKey b n) n = none := by
  induction b with
  | nil => rfl
  | cons p rest ih =>
      rcases eq_or_ne p.1 n with h | h
      · simpa [removeKey, List.filter_cons, h] using ih
      · simpa [removeKey, List.filter_cons, h, lookupObject] using ih

theorem lookupObject_removeKey_ne (b : Bucket) (n m : String) (h : m ≠ n) :
    lookupObject (removeKey b n) m = lookupObject b m := by
  induction b with
  | nil => rfl
  | cons p rest ih =>
      by_cases h2 : p.1 = n
      · simpa [removeKey, List.filter_cons, h2, lookupObject, Ne.symm h] using ih
      · by_cases h3 : p.1 = m
        · simp [removeKey, List.filter_cons, h2, lookupObject, h3, h]
        · simpa [removeKey, List.filter_cons, h2, lookupObject, h3] using ih

theorem lookupObject_putObject_self (b : Bucket) (n : String) (d : Bytes)
    (s : Nat) (ct : String) (t : Nat) :
    lookupObject (putObject b n d s ct t) n = some ⟨d.take s, ct, t⟩ := by
  simp [putObject, lookupObject]

theorem lookupObject_putObject_ne (b : Bucket) (n : String) (d : Bytes)
    (s : Nat) (ct : String) (t : Nat) (m : String) (h : m ≠ n) :
    lookupObject (putObject b n d s ct t) m = lookupObject b m := by
  simp [putObject, lookupObject, Ne.symm h, lookupObject_removeKey_ne b n m h]

theorem eq_of_mem_putObject (b : Bucket) (n : String) (d : Bytes) (s : Nat)
    (ct : String) (t : Nat) (p : String × StoredObject)
    (hp : p ∈ putObject b n d s ct t) (hn : p.1 = n) :
    p = (n, ⟨d.take s, ct, t⟩) := by
  rcases List.mem_cons.1 hp with h | h
  · exact h
  · exfalso
    have := List.of_mem_filter h
    simp [hn] at this

theorem lookupObject_of_mem_nodup (b : Bucket)
    (hnd : (b.map Prod.fst).Nodup) (p : String × StoredObject) (hp : p ∈ b) :
    lookupObject b p.1 = some p.2 := by
  induction b with
  | nil => cases hp
  | cons q rest ih =>
      rw [List.map_cons, List.nodup_cons] at hnd
      rcases List.mem_cons.1 hp with h | h
      · subst h; simp [lookupObject]
      · have hq : q.1 ≠ p.1 := fun e => hnd.1 (e ▸ List.mem_map_of_mem Prod.fst h)
        simp only [lookupObject, if_neg hq]
        exact ih hnd.2 h

theorem statRecord_name (b : Bucket) (o : ObjectSummary) :
    (MinIOStorage.statRecord b o).name = o.object_name := by
  cases h : lookupObject b o.object_name <;> simp [MinIOStorage.statRecord, h]

theorem statRecord_eq_recordOf (b : Bucket) (hnd : (b.map Prod.fst).Nodup)
    (p : String × StoredObject) (hp : p ∈ b) :
    MinIOStorage.statRecord b ⟨p.1, p.2.data.length, p.2.last_modified⟩ = recordOf p := by
  simp [MinIOStorage.statRecord, lookupObject_of_mem_nodup b hnd p hp, recordOf]

theorem list_files_fst_perm (b : Bucket) (hnd : (b.map Prod.fst).Nodup) :
    (MinIOStorage.list_files b).1.Perm (b.map recordOf) := by
  have hperm := List.perm_insertionSort keyLE b
  simp only [MinIOStorage.list_files, listObjects, List.map_map]
  have heq :
      (List.insertionSort keyLE b).map
          ((MinIOStorage.statRecord b) ∘ fun p => (⟨p.1, p.2.data.length, p.2.last_modified⟩ : ObjectSummary)) =
        (List.insertionSort keyLE b).map recordOf := by
    apply List.map_congr_left
    intro p hp
    exact statRecord_eq_recordOf b hnd p (hperm.mem_iff.1 hp)
  rw [heq]
  exact hperm.map recordOf

theorem list_files_calls (b : Bucket) :
    (MinIOStorage.list_files b).2 =
      BackendCall.list :: (MinIOStorage.list_files b).1.map fun r => .stat r.name := by
  simp only [MinIOStorage.list_files, List.map_map]
  congr 1
  apply List.map_congr_left
  intro o ho
  simp [Function.comp, statRecord_name]

theorem orDefault_contentTypeOrDefault (x : Option String) :
    orDefault (contentTypeOrDefault x) = contentTypeOrDefault x := by
  cases x with
  | none => decide
  | some s =>
      by_cases h : s = ""
      · subst h; decide
      · simp [contentTypeOrDefault, orDefault, h]

/-- Claim C1: for every byte sequence B and every name N not present in
the bucket, a successful upload of B under N followed by download(N)
returns exactly the bytes B, and the response content type equals the
content type supplied at upload, or the generic octet-stream default if
none was supplied. -/
theorem upload_download_round_trip (m : Nat) (b : Bucket)
    (file : UploadRequest) (t : Nat)
    (habs : lookupObject b file.filename = none)
    (hgate : sizeGate file.size m = false) :
    (App.upload_file m b file t).1 =
      UploadResult.ok ("File " ++ file.filename ++ " uploaded successfully")
        file.filename file.content.length file.content_type ∧
    (App.download_file (App.upload_file m b file t).2.1 file.filename).1 =
      DownloadResult.ok file.content (contentTypeOrDefault file.content_type)
        ("attachment; filename=" ++ file.filename) := by
  have hb2 : (App.upload_file m b file t).2.1 =
      putObject b file.filename file.content file.content.length
        (contentTypeOrDefault file.content_type) t := by
    simp [App.upload_file, hgate, MinIOStorage.file_exists, habs,
      MinIOStorage.upload_file]
  constructor
  · simp [App.upload_file, hgate, MinIOStorage.file_exists, habs,
      MinIOStorage.upload_file]
  · rw [hb2]
    simp [App.download_file, MinIOStorage.file_exists,
      lookupObject_putObject_self, MinIOStorage.get_file_info,
      MinIOStorage.download_file, List.take_length,
      orDefault_contentTypeOrDefault]

theorem upload_download_round_trip_witness :
    lookupObject [] "a.txt" = none ∧
    sizeGate (some 3) settings_max_file_size = false ∧
    ((App.upload_file settings_max_file_size []
        { filename := "a.txt", content := [104, 105, 33], size := some 3,
          content_type := some "text/plain" } 7).1 =
      UploadResult.ok ("File " ++ "a.txt" ++ " uploaded successfully")
        "a.txt" 3 (some "text/plain") ∧
    (App.download_file
        (App.upload_file settings_max_file_size []
          { filename := "a.txt", content := [104, 105, 33], size := some 3,
            content_type := some "text/plain" } 7).2.1 "a.txt").1 =
      DownloadResult.ok [104, 105, 33]
        (contentTypeOrDefault (some "text/plain"))
        ("attachment; filename=" ++ "a.txt")) :=
  ⟨rfl, by decide, upload_download_round_trip settings_max_file_size []
    { filename := "a.txt", content := [104, 105, 33], size := some 3,
      content_type := some "text/plain" } 7 rfl (by decide)⟩

/-- Claim C3: for every upload whose declared size is known and strictly
greater than the configured maximum upload size, the operation fails with
TooLarge (status 413) and no backend call of any kind is made, so the
bucket state is unchanged and a subsequent exists(N) for a previously
absent N is false. -/
theorem size_gate_rejects_without_backend (m : Nat) (b : Bucket)
    (file : UploadRequest) (t : Nat) (s : Nat)
    (hs : file.size = some s) (hgt : m < s) :
    (App.upload_file m b file t).1 =
      UploadResult.err 413
        ("File too large. Maximum size is " ++ toString m ++ " bytes") ∧
    (App.upload_file m b file t).2.1 = b ∧
    (App.upload_file m b file t).2.2 = [] ∧
    ∀ N : String, lookupObject b N = none →
      lookupObject (App.upload_file m b file t).2.1 N = none := by
  have hgate : sizeGate file.size m = true := by
    simp [sizeGate, hs, hgt, Nat.lt_of_le_of_lt (Nat.zero_le m) hgt]
  refine ⟨by simp [App.upload_file, hgate], by simp [App.upload_file, hgate],
    by simp [App.upload_file, hgate], ?_⟩
  intro N h
  simpa [App.upload_file, hgate] using h

theorem size_gate_rejects_without_backend_witness :
    ({ filename := "big.bin", content := [0], size := some 104857601,
       content_type := none } : UploadRequest).size = some 104857601 ∧
    settings_max_file_size < 104857601 ∧
    ((App.upload_file settings_max_file_size []
        { filename := "big.bin", content := [0], size := some 104857601,
          content_type := none } 0).1 =
      UploadResult.err 413
        ("File too large. Maximum size is " ++ toString settings_max_file_size ++ " bytes") ∧
    (App.upload_file settings_max_file_size []
        { filename := "big.bin", content := [0], size := some 104857601,
          content_type := none } 0).2.1 = [] ∧
    (App.upload_file settings_max_file_size []
        { filename := "big.bin", content := [0], size := some 104857601,
          content_type := none } 0).2.2 = [] ∧
    ∀ N : String, lookupObject [] N = none →
      lookupObject (App.upload_file settings_max_file_size []
        { filename := "big.bin", content := [0], size := some 104857601,
          content_type := none } 0).2.1 N = none) :=
  ⟨rfl, by decide, size_gate_rejects_without_backend settings_max_file_size []
    { filename := "big.bin", content := [0], size := some 104857601,
      content_type := none } 0 104857601 rfl (by decide)⟩

/-- Claim C5: for every name N that is absent from the bucket, each of
download(N), getInfo(N), and delete(N) yields NotFound (status 404), and
none of them changes the bucket state. -/
theorem not_found_symmetry (b : Bucket) (N : String)
    (habs : lookupObject b N = none) :
    (App.download_file b N).1 = DownloadResult.err 404 "File not found" ∧
    (App.download_file b N).2.1 = b ∧
    (App.get_file_info b N).1 = InfoResult.err 404 "File not found" ∧
    (App.get_file_info b N).2.1 = b ∧
    (App.delete_file b N).1 = DeleteResult.err 404 "File not found" ∧
    (App.delete_file b N).2.1 = b := by
  refine ⟨?_, ?_, ?_, ?_, ?_, ?_⟩ <;>
    simp [App.download_file, App.get_file_info, App.delete_file,
      MinIOStorage.file_exists, MinIOStorage.get_file_info, habs]

theorem not_found_symmetry_witness :
    lookupObject [("b.txt", ⟨[1], "text/plain", 0⟩)] "a.txt" = none ∧
    ((App.download_file [("b.txt", ⟨[1], "text/plain", 0⟩)] "a.txt").1 =
      DownloadResult.err 404 "File not found" ∧
    (App.download_file [("b.txt", ⟨[1], "text/plain", 0⟩)] "a.txt").2.1 =
      [("b.txt", ⟨[1], "text/plain", 0⟩)] ∧
    (App.get_file_info [("b.txt", ⟨[1], "text/plain", 0⟩)] "a.txt").1 =
      InfoResult.err 404 "File not found" ∧
    (App.get_file_info [("b.txt", ⟨[1], "text/plain", 0⟩)] "a.txt").2.1 =
      [("b.txt", ⟨[1], "text/plain", 0⟩)] ∧
    (App.delete_file [("b.txt", ⟨[1], "text/plain", 0⟩)] "a.txt").1 =
      DeleteResult.err 404 "File not found" ∧
    (App.delete_file [("b.txt", ⟨[1], "text/plain", 0⟩)] "a.txt").2.1 =
      [("b.txt", ⟨[1], "text/plain", 0⟩)]) :=
  ⟨by decide, not_found_symmetry [("b.txt", ⟨[1], "text/plain", 0⟩)] "a.txt" (by decide)⟩

/-- Claim C6: for every name N present in the bucket, delete(N) first
checks existence and then succeeds (status 200), after which exists(N) is
false; a second delete(N) yields NotFound; at the backend-client level,
delete reports false rather than raising an error when the object did not
exist. -/
theorem delete_then_query_semantics (b : Bucket) (N : String)
    (obj : StoredObject) (hpres : lookupObject b N = some obj) :
    (App.delete_file b N).1 =
      DeleteResult.ok ("File " ++ N ++ " deleted successfully") ∧
    (App.delete_file b N).2.2 = [BackendCall.stat N, BackendCall.remove N] ∧
    lookupObject (App.delete_file b N).2.1 N = none ∧
    (App.delete_file (App.delete_file b N).2.1 N).1 =
      DeleteResult.err 404 "File not found" ∧
    ∀ b2 : Bucket, lookupObject b2 N = none →
      MinIOStorage.delete_file b2 N = (b2, false, [BackendCall.remove N]) := by
  have h1 : (App.delete_file b N).2.1 = removeKey b N := by
    simp [App.delete_file, MinIOStorage.file_exists, hpres,
      MinIOStorage.delete_file, removeObject]
  refine ⟨?_, ?_, ?_, ?_, ?_⟩
  · simp [App.delete_file, MinIOStorage.file_exists, hpres,
      MinIOStorage.delete_file, removeObject]
  · simp [App.delete_file, MinIOStorage.file_exists, hpres,
      MinIOStorage.delete_file, removeObject]
  · rw [h1]; exact lookupObject_removeKey_self b N
  · rw [h1]
    simp [App.delete_file, MinIOStorage.file_exists, lookupObject_removeKey_self]
  · intro b2 h2
    simp [MinIOStorage.delete_file, removeObject, h2]

theorem delete_then_query_semantics_witness :
    lookupObject [("a.txt", ⟨[1, 2], "text/plain", 5⟩)] "a.txt" =
      some ⟨[1, 2], "text/plain", 5⟩ ∧
    ((App.delete_file [("a.txt", ⟨[1, 2], "text/plain", 5⟩)] "a.txt").1 =
      DeleteResult.ok ("File " ++ "a.txt" ++ " deleted successfully") ∧
    (App.delete_file [("a.txt", ⟨[1, 2], "text/plain", 5⟩)] "a.txt").2.2 =
      [BackendCall.stat "a.txt", BackendCall.remove "a.txt"] ∧
    lookupObject
      (App.delete_file [("a.txt", ⟨[1, 2], "text/plain", 5⟩)] "a.txt").2.1
      "a.txt" = none ∧
    (App.delete_file
      (App.delete_file [("a.txt", ⟨[1, 2], "text/plain", 5⟩)] "a.txt").2.1
      "a.txt").1 = DeleteResult.err 404 "File not found" ∧
    ∀ b2 : Bucket, lookupObject b2 "a.txt" = none →
      MinIOStorage.delete_file b2 "a.txt" =
        (b2, false, [BackendCall.remove "a.txt"])) :=
  ⟨by decide, delete_then_query_semantics
    [("a.txt", ⟨[1, 2], "text/plain", 5⟩)] "a.txt"
    ⟨[1, 2], "text/plain", 5⟩ (by decide)⟩

theorem orDefault_octet :
    orDefault "application/octet-stream" = "application/octet-stream" := by decide

/-- Claim C2 counterexample: with "a.txt" already present in the bucket,
a second upload of "a.txt" whose declared size exceeds the configured
maximum is rejected by the size gate with status 413, not with the
AlreadyExists status 409 the claim requires — the size gate runs before
the existence check. -/
theorem second_upload_not_always_conflict :
    lookupObject [("a.txt", ⟨[1], "text/plain", 0⟩)] "a.txt" ≠ none ∧
    (App.upload_file settings_max_file_size
        [("a.txt", ⟨[1], "text/plain", 0⟩)]
        { filename := "a.txt", content := [2, 3], size := some 104857601,
          content_type := none } 1).1.status = 413 ∧
    (App.upload_file settings_max_file_size
        [("a.txt", ⟨[1], "text/plain", 0⟩)]
        { filename := "a.txt", content := [2, 3], size := some 104857601,
          content_type := none } 1).1.status ≠ 409 := by decide

/-- Claim C2 (amended): for every name N already present in the bucket, a
second upload(N, B2) without an intervening delete and whose declared
size does not trip the size gate (size unknown, zero, or not above the
configured maximum) fails with AlreadyExists (status 409); the stored
object under N is unchanged and the only backend call made is the
existence stat, so no backend write occurs. -/
theorem second_upload_conflict (m : Nat) (b : Bucket) (file : UploadRequest)
    (t : Nat) (obj : StoredObject)
    (hpres : lookupObject b file.filename = some obj)
    (hgate : sizeGate file.size m = false) :
    (App.upload_file m b file t).1 =
      UploadResult.err 409 ("File " ++ file.filename ++ " already exists") ∧
    (App.upload_file m b file t).2.1 = b ∧
    (App.upload_file m b file t).2.2 = [BackendCall.stat file.filename] ∧
    lookupObject (App.upload_file m b file t).2.1 file.filename = some obj := by
  refine ⟨?_, ?_, ?_, ?_⟩ <;>
    simp [App.upload_file, hgate, MinIOStorage.file_exists, hpres]

theorem second_upload_conflict_witness :
    lookupObject [("a.txt", ⟨[1], "text/plain", 0⟩)] "a.txt" =
      some ⟨[1], "text/plain", 0⟩ ∧
    sizeGate (some 2) settings_max_file_size = false ∧
    ((App.upload_file settings_max_file_size
        [("a.txt", ⟨[1], "text/plain", 0⟩)]
        { filename := "a.txt", content := [2, 3], size := some 2,
          content_type := none } 1).1 =
      UploadResult.err 409 ("File " ++ "a.txt" ++ " already exists") ∧
    (App.upload_file settings_max_file_size
        [("a.txt", ⟨[1], "text/plain", 0⟩)]
        { filename := "a.txt", content := [2, 3], size := some 2,
          content_type := none } 1).2.1 =
      [("a.txt", ⟨[1], "text/plain", 0⟩)] ∧
    (App.upload_file settings_max_file_size
        [("a.txt", ⟨[1], "text/plain", 0⟩)]
        { filename := "a.txt", content := [2, 3], size := some 2,
          content_type := none } 1).2.2 = [BackendCall.stat "a.txt"] ∧
    lookupObject
      (App.upload_file settings_max_file_size
        [("a.txt", ⟨[1], "text/plain", 0⟩)]
        { filename := "a.txt", content := [2, 3], size := some 2,
          content_type := none } 1).2.1 "a.txt" =
      some ⟨[1], "text/plain", 0⟩) :=
  ⟨by decide, by decide, second_upload_conflict settings_max_file_size
    [("a.txt", ⟨[1], "text/plain", 0⟩)]
    { filename := "a.txt", content := [2, 3], size := some 2,
      content_type := none } 1 ⟨[1], "text/plain", 0⟩ (by decide) (by decide)⟩

/-- Claim C4: for every bucket state, the sequence of FileRecords
returned by list() is sorted in ascending order of the name field. -/
theorem listing_sorted_by_name (b : Bucket) :
    List.Sorted (· ≤ ·) ((App.list_files b).1.map FileInfo.name) := by
  have h := List.sorted_insertionSort keyLE b
  simp only [App.list_files, MinIOStorage.list_files, listObjects, List.map_map]
  unfold List.Sorted
  rw [List.pairwise_map]
  exact h.imp fun hab => by
    simpa [Function.comp, statRecord_name, keyLE] using hab

/-- Claim C8: for every upload whose content type is absent or the empty
string, the object is stored with content type
"application/octet-stream", and every subsequent getInfo(N), list(), and
download(N) reports that default for N. -/
theorem content_type_defaulting (m : Nat) (b : Bucket) (file : UploadRequest)
    (t : Nat) (habs : lookupObject b file.filename = none)
    (hgate : sizeGate file.size m = false)
    (hct : file.content_type = none ∨ file.content_type = some "") :
    lookupObject (App.upload_file m b file t).2.1 file.filename =
      some ⟨file.content, "application/octet-stream", t⟩ ∧
    (App.get_file_info (App.upload_file m b file t).2.1 file.filename).1 =
      InfoResult.ok ⟨file.filename, file.content.length, t,
        "application/octet-stream"⟩ ∧
    (App.download_file (App.upload_file m b file t).2.1 file.filename).1 =
      DownloadResult.ok file.content "application/octet-stream"
        ("attachment; filename=" ++ file.filename) ∧
    ∀ r ∈ (App.list_files (App.upload_file m b file t).2.1).1,
      r.name = file.filename → r.content_type = "application/octet-stream" := by
  have hctd : contentTypeOrDefault file.content_type = "application/octet-stream" := by
    rcases hct with h | h <;> simp [h, contentTypeOrDefault, orDefault]
  have hb2 : (App.upload_file m b file t).2.1 =
      putObject b file.filename file.content file.content.length
        "application/octet-stream" t := by
    simp [App.upload_file, hgate, MinIOStorage.file_exists, habs,
      MinIOStorage.upload_file, hctd]
  rw [hb2]
  refine ⟨?_, ?_, ?_, ?_⟩
  · simpa using lookupObject_putObject_self b file.filename file.content
      file.content.length "application/octet-stream" t
  · simp [App.get_file_info, MinIOStorage.get_file_info,
      lookupObject_putObject_self, orDefault_octet, List.take_length]
  · simp [App.download_file, MinIOStorage.file_exists,
      lookupObject_putObject_self, MinIOStorage.get_file_info,
      MinIOStorage.download_file, List.take_length, orDefault_octet]
  · intro r hr hname
    simp only [App.list_files, MinIOStorage.list_files] at hr
    obtain ⟨o, ho, rfl⟩ := List.mem_map.1 hr
    have hon : o.object_name = file.filename := by
      simpa [statRecord_name] using hname
    simp [MinIOStorage.statRecord, hon, lookupObject_putObject_self,
      orDefault_octet]

theorem content_type_defaulting_witness :
    lookupObject [] "x.bin" = none ∧
    sizeGate none settings_max_file_size = false ∧
    (({ filename := "x.bin", content := [9, 8], size := none,
        content_type := none } : UploadRequest).content_type = none ∨
      ({ filename := "x.bin", content := [9, 8], size := none,
         content_type := none } : UploadRequest).content_type = some "") ∧
    (lookupObject (App.upload_file settings_max_file_size []
        { filename := "x.bin", content := [9, 8], size := none,
          content_type := none } 4).2.1 "x.bin" =
      some ⟨[9, 8], "application/octet-stream", 4⟩ ∧
    (App.get_file_info (App.upload_file settings_max_file_size []
        { filename := "x.bin", content := [9, 8], size := none,
          content_type := none } 4).2.1 "x.bin").1 =
      InfoResult.ok ⟨"x.bin", 2, 4, "application/octet-stream"⟩ ∧
    (App.download_file (App.upload_file settings_max_file_size []
        { filename := "x.bin", content := [9, 8], size := none,
          content_type := none } 4).2.1 "x.bin").1 =
      DownloadResult.ok [9, 8] "application/octet-stream"
        ("attachment; filename=" ++ "x.bin") ∧
    ∀ r ∈ (App.list_files (App.upload_file settings_max_file_size []
        { filename := "x.bin", content := [9, 8], size := none,
          content_type := none } 4).2.1).1,
      r.name = "x.bin" → r.content_type = "application/octet-stream") :=
  ⟨rfl, by decide, Or.inl rfl, content_type_defaulting settings_max_file_size []
    { filename := "x.bin", content := [9, 8], size := none,
      content_type := none } 4 rfl (by decide) (Or.inl rfl)⟩

/-- Claim C9 (implicit): the size limit is enforced only on the declared
size — for every upload whose declared size is unknown (absent) or zero,
the TooLarge check is skipped and the upload proceeds and succeeds
regardless of the actual byte count read from the request; no check
against the actual transferred byte count is performed. -/
theorem size_gate_skipped_when_declared_unknown (m : Nat) (b : Bucket)
    (file : UploadRequest) (t : Nat)
    (hd : file.size = none ∨ file.size = some 0)
    (habs : lookupObject b file.filename = none) :
    (App.upload_file m b file t).1 =
      UploadResult.ok ("File " ++ file.filename ++ " uploaded successfully")
        file.filename file.content.length file.content_type ∧
    lookupObject (App.upload_file m b file t).2.1 file.filename =
      some ⟨file.content, contentTypeOrDefault file.content_type, t⟩ := by
  have hgate : sizeGate file.size m = false := by
    rcases hd with h | h <;> simp [sizeGate, h]
  constructor
  · simp [App.upload_file, hgate, MinIOStorage.file_exists, habs,
      MinIOStorage.upload_file]
  · simp [App.upload_file, hgate, MinIOStorage.file_exists, habs,
      MinIOStorage.upload_file, lookupObject_putObject_self, List.take_length]

theorem size_gate_skipped_witness :
    settings_max_file_size < (List.replicate 104857601 0 : Bytes).length ∧
    (({ filename := "big.bin", content := List.replicate 104857601 0,
        size := none, content_type := none } : UploadRequest).size = none ∨
      ({ filename := "big.bin", content := List.replicate 104857601 0,
         size := none, content_type := none } : UploadRequest).size = some 0) ∧
    lookupObject [] "big.bin" = none ∧
    ((App.upload_file settings_max_file_size []
        { filename := "big.bin", content := List.replicate 104857601 0,
          size := none, content_type := none } 0).1 =
      UploadResult.ok ("File " ++ "big.bin" ++ " uploaded successfully")
        "big.bin" (List.replicate 104857601 (0 : Nat)).length none ∧
    lookupObject (App.upload_file settings_max_file_size []
        { filename := "big.bin", content := List.replicate 104857601 0,
          size := none, content_type := none } 0).2.1 "big.bin" =
      some ⟨List.replicate 104857601 0, contentTypeOrDefault none, 0⟩) :=
  ⟨by rw [List.length_replicate]; decide, Or.inl rfl, rfl,
    size_gate_skipped_when_declared_unknown settings_max_file_size []
      { filename := "big.bin", content := List.replicate 104857601 0,
        size := none, content_type := none } 0 (Or.inl rfl) rfl⟩

/-- Claim C10 (implicit): the upload success response echoes the
client-supplied content type verbatim — for an upload with an absent
content type the 200 response's content_type field is null even though
the object was stored with the "application/octet-stream" default, so the
upload response and a subsequent getInfo(N) disagree on content type. -/
theorem upload_response_echoes_client_content_type (m : Nat) (b : Bucket)
    (file : UploadRequest) (t : Nat)
    (habs : lookupObject b file.filename = none)
    (hgate : sizeGate file.size m = false)
    (hct : file.content_type = none) :
    (App.upload_file m b file t).1 =
      UploadResult.ok ("File " ++ file.filename ++ " uploaded successfully")
        file.filename file.content.length none ∧
    (App.get_file_info (App.upload_file m b file t).2.1 file.filename).1 =
      InfoResult.ok ⟨file.filename, file.content.length, t,
        "application/octet-stream"⟩ := by
  have hb2 : (App.upload_file m b file t).2.1 =
      putObject b file.filename file.content file.content.length
        "application/octet-stream" t := by
    simp [App.upload_file, hgate, MinIOStorage.file_exists, habs,
      MinIOStorage.upload_file, hct, contentTypeOrDefault]
  constructor
  · simp [App.upload_file, hgate, MinIOStorage.file_exists, habs,
      MinIOStorage.upload_file, hct]
  · rw [hb2]
    simp [App.get_file_info, MinIOStorage.get_file_info,
      lookupObject_putObject_self, orDefault_octet, List.take_length]

theorem upload_response_echoes_witness :
    lookupObject [] "y.bin" = none ∧
    sizeGate (some 1) settings_max_file_size = false ∧
    (({ filename := "y.bin", content := [7], size := some 1,
        content_type := none } : UploadRequest).content_type = none) ∧
    ((App.upload_file settings_max_file_size []
        { filename := "y.bin", content := [7], size := some 1,
          content_type := none } 2).1 =
      UploadResult.ok ("File " ++ "y.bin" ++ " uploaded successfully")
        "y.bin" 1 none ∧
    (App.get_file_info (App.upload_file settings_max_file_size []
        { filename := "y.bin", content := [7], size := some 1,
          content_type := none } 2).2.1 "y.bin").1 =
      InfoResult.ok ⟨"y.bin", 1, 2, "application/octet-stream"⟩) :=
  ⟨rfl, by decide, rfl, upload_response_echoes_client_content_type
    settings_max_file_size []
    { filename := "y.bin", content := [7], size := some 1,
      content_type := none } 2 rfl (by decide) rfl⟩

/-- Claim C7: after uploading exactly the files A, B, C into an empty
bucket, list() returns exactly three records whose name set is {A, B, C},
each record's size equalling the number of bytes written for that name
and each record's content type equalling the type declared at upload (or
the octet-stream default), the content type being recovered by one stat
call per listed object. -/
theorem listing_completeness (m : Nat) (rA rB rC : UploadRequest)
    (t1 t2 t3 : Nat)
    (hAB : rA.filename ≠ rB.filename) (hAC : rA.filename ≠ rC.filename)
    (hBC : rB.filename ≠ rC.filename)
    (gA : sizeGate rA.size m = false) (gB : sizeGate rB.size m = false)
    (gC : sizeGate rC.size m = false) :
    ((App.list_files (uploadThree m rA rB rC t1 t2 t3 [])).1.map
        fun r => (r.name, r.size, r.content_type)).Perm
      [(rA.filename, rA.content.length, contentTypeOrDefault rA.content_type),
       (rB.filename, rB.content.length, contentTypeOrDefault rB.content_type),
       (rC.filename, rC.content.length, contentTypeOrDefault rC.content_type)] ∧
    (App.list_files (uploadThree m rA rB rC t1 t2 t3 [])).1.length = 3 ∧
    (App.list_files (uploadThree m rA rB rC t1 t2 t3 [])).2.2 =
      BackendCall.list ::
        (App.list_files (uploadThree m rA rB rC t1 t2 t3 [])).1.map
          fun r => .stat r.name := by
  have hb1 : (App.upload_file m [] rA t1).2.1 =
      [(rA.filename, ⟨rA.content, contentTypeOrDefault rA.content_type, t1⟩)] := by
    simp [App.upload_file, gA, MinIOStorage.file_exists, lookupObject,
      MinIOStorage.upload_file, putObject, removeKey, List.take_length]
  have hb2 : (App.upload_file m (App.upload_file m [] rA t1).2.1 rB t2).2.1 =
      [(rB.filename, ⟨rB.content, contentTypeOrDefault rB.content_type, t2⟩),
       (rA.filename, ⟨rA.content, contentTypeOrDefault rA.content_type, t1⟩)] := by
    rw [hb1]
    simp [App.upload_file, gB, MinIOStorage.file_exists, lookupObject, hAB,
      MinIOStorage.upload_file, putObject, removeKey, List.filter_cons,
      List.take_length]
  have hb3 : uploadThree m rA rB rC t1 t2 t3 [] =
      [(rC.filename, ⟨rC.content, contentTypeOrDefault rC.content_type, t3⟩),
       (rB.filename, ⟨rB.content, contentTypeOrDefault rB.content_type, t2⟩),
       (rA.filename, ⟨rA.content, contentTypeOrDefault rA.content_type, t1⟩)] := by
    rw [uploadThree, hb2]
    simp [App.upload_file, gC, MinIOStorage.file_exists, lookupObject, hAC, hBC,
      MinIOStorage.upload_file, putObject, removeKey, List.filter_cons,
      List.take_length]
  have hnd : (([
      (rC.filename, ⟨rC.content, contentTypeOrDefault rC.content_type, t3⟩),
      (rB.filename, ⟨rB.content, contentTypeOrDefault rB.content_type, t2⟩),
      (rA.filename, ⟨rA.content, contentTypeOrDefault rA.content_type, t1⟩)] :
        Bucket).map Prod.fst).Nodup := by
    simp [Ne.symm hAB, Ne.symm hAC, Ne.symm hBC]
  rw [hb3]
  refine ⟨?_, ?_, ?_⟩
  · have h1 := (list_files_fst_perm _ hnd).map
      (fun r : FileInfo => (r.name, r.size, r.content_type))
    have h2 : (([
        (rC.filename, ⟨rC.content, contentTypeOrDefault rC.content_type, t3⟩),
        (rB.filename, ⟨rB.content, contentTypeOrDefault rB.content_type, t2⟩),
        (rA.filename, ⟨rA.content, contentTypeOrDefault rA.content_type, t1⟩)] :
          Bucket).map recordOf).map
          (fun r : FileInfo => (r.name, r.size, r.content_type)) =
        [(rC.filename, rC.content.length, contentTypeOrDefault rC.content_type),
         (rB.filename, rB.content.length, contentTypeOrDefault rB.content_type),
         (rA.filename, rA.content.length, contentTypeOrDefault rA.content_type)] := by
      simp [recordOf, orDefault_contentTypeOrDefault]
    rw [h2] at h1
    simp only [App.list_files]
    exact h1.trans (List.reverse_perm
      [(rA.filename, rA.content.length, contentTypeOrDefault rA.content_type),
       (rB.filename, rB.content.length, contentTypeOrDefault rB.content_type),
       (rC.filename, rC.content.length, contentTypeOrDefault rC.content_type)])
  · simp only [App.list_files]
    rw [(list_files_fst_perm _ hnd).length_eq]
    simp
  · simp only [App.list_files]
    exact list_files_calls _

theorem listing_completeness_witness :
    ("a.txt" : String) ≠ "b.txt" ∧ ("a.txt" : String) ≠ "c.txt" ∧
    ("b.txt" : String) ≠ "c.txt" ∧
    sizeGate (some 1) settings_max_file_size = false ∧
    sizeGate none settings_max_file_size = false ∧
    sizeGate (some 3) settings_max_file_size = false ∧
    (((App.list_files (uploadThree settings_max_file_size
        { filename := "a.txt", content := [1], size := some 1,
          content_type := some "text/plain" }
        { filename := "b.txt", content := [2, 2], size := none,
          content_type := none }
        { filename := "c.txt", content := [3, 3, 3], size := some 3,
          content_type := some "" } 1 2 3 [])).1.map
        fun r => (r.name, r.size, r.content_type)).Perm
      [("a.txt", 1, contentTypeOrDefault (some "text/plain")),
       ("b.txt", 2, contentTypeOrDefault none),
       ("c.txt", 3, contentTypeOrDefault (some ""))] ∧
    (App.list_files (uploadThree settings_max_file_size
        { filename := "a.txt", content := [1], size := some 1,
          content_type := some "text/plain" }
        { filename := "b.txt", content := [2, 2], size := none,
          content_type := none }
        { filename := "c.txt", content := [3, 3, 3], size := some 3,
          content_type := some "" } 1 2 3 [])).1.length = 3 ∧
    (App.list_files (uploadThree settings_max_file_size
        { filename := "a.txt", content := [1], size := some 1,
          content_type := some "text/plain" }
        { filename := "b.txt", content := [2, 2], size := none,
          content_type := none }
        { filename := "c.txt", content := [3, 3, 3], size := some 3,
          content_type := some "" } 1 2 3 [])).2.2 =
      BackendCall.list ::
        (App.list_files (uploadThree settings_max_file_size
            { filename := "a.txt", content := [1], size := some 1,
              content_type := some "text/plain" }
            { filename := "b.txt", content := [2, 2], size := none,
              content_type := none }
            { filename := "c.txt", content := [3, 3, 3], size := some 3,
              content_type := some "" } 1 2 3 [])).1.map
          fun r => .stat r.name) :=
  ⟨by decide, by decide, by decide, by decide, by decide, by decide,
    listing_completeness settings_max_file_size
      { filename := "a.txt", content := [1], size := some 1,
        content_type := some "text/plain" }
      { filename := "b.txt", content := [2, 2], size := none,
        content_type := none }
      { filename := "c.txt", content := [3, 3, 3], size := some 3,
        content_type := some "" } 1 2 3
      (by decide) (by decide) (by decide) (by decide) (by decide) (by decide)⟩
